import Mathlib

/-!
A shallow embedding of the pm2-monitor terminal dashboard (TypeScript sources
`src/utils/format.ts`, `src/services/pm2Client.ts`, `src/ui/app.ts`) together
with theorems settling the frozen specification claims.

Modelling conventions:
* JavaScript numbers appearing here are either integers by construction
  (pm ids, byte counts, millisecond durations) or irrelevant to any claim;
  they are modelled as `Int` / `Nat`.  In `formatBytes` the running value
  `current` is always `bytes / 1024 ^ k` for a natural `bytes`; division of an
  IEEE double by 1024 is exact (an exponent shift), so the exact rational
  model used below coincides with the JavaScript float computation for every
  representable input.
* `undefined` / optional values are `Option`; JavaScript truthiness tests on
  numbers (`!ms`, `pm_uptime ?`) compare against 0 explicitly.
* Fallible asynchronous calls are modelled by passing their resolved outcome
  (`Except String α`) as an explicit argument; UI side effects that matter to
  the claims (notifications shown, forced refreshes, registry delete calls)
  are recorded in explicit trace structures.
-/

namespace PM2X

/-! ### String helpers: JavaScript `String.prototype.includes` -/

/-- `strHasPref needle hay` is true when `needle` is an initial run of `hay`
(character-wise equality), mirroring the prefix test underlying
`String.prototype.includes`. -/
def strHasPref : List Char → List Char → Bool
  | [], _ => true
  | _ :: _, [] => false
  | a :: as, b :: bs => a == b && strHasPref as bs

/-- Scan of the haystack for an occurrence of `needle` at any position. -/
def strContainsAux (needle : List Char) : List Char → Bool
  | [] => strHasPref needle []
  | c :: cs => strHasPref needle (c :: cs) || strContainsAux needle cs

/-- JavaScript `hay.includes(needle)`. -/
def jsIncludes (hay needle : String) : Bool :=
  strContainsAux needle.data hay.data

/-- JavaScript `s.toLowerCase()`; the monitored names, namespaces, statuses
and queries are ASCII, where per-character lowering coincides with the
JavaScript Unicode lowering. -/
def jsToLower (s : String) : String :=
  ⟨s.data.map Char.toLower⟩

/-! ### `src/utils/format.ts` -/

/-- `formatUptime(ms?: number)` from `src/utils/format.ts`.

The source returns `"-"` when `!ms || ms < 0`; for a numeric argument the
truthiness test `!ms` is exactly `ms = 0`, so the guard is `ms ≤ 0` (with
`none` for an `undefined` argument).  Otherwise it floors `ms / 1000` and
renders hours/minutes, minutes/seconds, or seconds. -/
def formatUptime : Option Int → String
  | none => "-"
  | some ms =>
    if ms ≤ 0 then "-"
    else
      let totalSeconds := ms.toNat / 1000
      let hours := totalSeconds / 3600
      let minutes := (totalSeconds % 3600) / 60
      let seconds := totalSeconds % 60
      if hours > 0 then
        toString hours ++ "h " ++ toString minutes ++ "m"
      else if minutes > 0 then
        toString minutes ++ "m " ++ toString seconds ++ "s"
      else
        toString seconds ++ "s"

/-- The displayed-unit bucket of `formatUptime`: 0 for the `"-"` branch,
1 when the seconds branch renders, 2 for minutes, 3 for hours.  The branch
conditions are the source's `hours > 0` / `minutes > 0` tests verbatim. -/
def uptimeBucket : Option Int → Nat
  | none => 0
  | some ms =>
    if ms ≤ 0 then 0
    else
      let totalSeconds := ms.toNat / 1000
      if totalSeconds / 3600 > 0 then 3
      else if (totalSeconds % 3600) / 60 > 0 then 2
      else 1

/-- Rounding of the exact rational `num / den` to the nearest integer with
ties rounded up, as `Number.prototype.toFixed` does for the nonnegative
values arising in `formatBytes`. -/
def roundHalfUp (num den : Nat) : Nat :=
  (2 * num + den) / (2 * den)

/-- The final `unitIndex` of the `while (current >= 1024 && unitIndex < units.length - 1)`
loop in `formatBytes`: after `k` divisions `current = bytes / 1024 ^ k`, so the
loop advances from `k` exactly when `1024 ^ (k + 1) ≤ bytes` and `k < 3`. -/
def byteUnitIndex (bytes : Nat) : Nat :=
  if 1024 ≤ bytes then
    if 1024 ^ 2 ≤ bytes then
      if 1024 ^ 3 ≤ bytes then 3 else 2
    else 1
  else 0

/-- `formatBytes(bytes?: number)` from `src/utils/format.ts`.

`!bytes || bytes <= 0` is `bytes = 0` for a natural byte count (`none` for
`undefined`).  The loop result is `current = bytes / 1024 ^ k` with
`k = byteUnitIndex bytes`; `current.toFixed(current >= 100 ? 0 : 1)` renders
zero or one decimal digit with `toFixed`'s round-half-up, and
`current >= 100` is exactly `100 * 1024 ^ k ≤ bytes`. -/
def formatBytes : Option Nat → String
  | none => "-"
  | some bytes =>
    if bytes = 0 then "-"
    else
      let k := byteUnitIndex bytes
      let den := 1024 ^ k
      let unit := ["B", "KB", "MB", "GB"].getD k "B"
      if 100 * den ≤ bytes then
        toString (roundHalfUp bytes den) ++ " " ++ unit
      else
        let v10 := roundHalfUp (10 * bytes) den
        toString (v10 / 10) ++ "." ++ toString (v10 % 10) ++ " " ++ unit

/-! ### `src/services/pm2Client.ts`: data model and `listProcesses` mapping -/

/-- The pm2 `instances` field is `number | "max"`. -/
inductive InstanceCount where
  | count (n : Int)
  | max
deriving DecidableEq

/-- The `ManagedProcess` interface of `src/services/pm2Client.ts`.  CPU
percent is modelled as an integer: no verified claim depends on fractional
telemetry values. -/
structure ManagedProcess where
  pmId : Int
  name : String
  «namespace» : Option String
  pid : Option Int
  status : String
  uptime : Option Int
  cpu : Option Int
  memory : Option Nat
  instances : Option InstanceCount
  restarts : Option Nat
  script : Option String
  execMode : Option String
deriving DecidableEq

/-- The fields of pm2's `ProcessDescription.pm2_env` read by `listProcesses`
(including the `ExtendedPm2Env` additions `namespace` and `exec_mode`). -/
structure RawEnv where
  status : Option String
  pm_uptime : Option Int
  instances : Option InstanceCount
  restart_time : Option Nat
  pm_exec_path : Option String
  «namespace» : Option String
  exec_mode : Option String
deriving DecidableEq

/-- pm2's `ProcessDescription.monit`. -/
structure RawMonit where
  cpu : Option Int
  memory : Option Nat
deriving DecidableEq

/-- The fields of pm2's `ProcessDescription` read by `listProcesses`. -/
structure RawProc where
  pm_id : Option Int
  name : Option String
  pid : Option Int
  pm2_env : Option RawEnv
  monit : Option RawMonit
deriving DecidableEq

/-- The element conversion in `PM2Client.listProcesses` (`list.map (proc => ...)`,
lines 64-81 of `src/services/pm2Client.ts`).  `now` stands for `Date.now()`;
the `proc.pm2_env?.pm_uptime ?` truthiness test makes a zero `pm_uptime`
yield `undefined`. -/
def toManaged (now : Int) (proc : RawProc) : ManagedProcess where
  pmId := proc.pm_id.getD (-1)
  name := proc.name.getD "unknown"
  «namespace» := some (((proc.pm2_env.bind fun e => e.«namespace»).getD "default"))
  pid := proc.pid
  status := (proc.pm2_env.bind fun e => e.status).getD "unknown"
  uptime :=
    match proc.pm2_env.bind fun e => e.pm_uptime with
    | some t => if t ≠ 0 then some (now - t) else none
    | none => none
  cpu := proc.monit.bind fun m => m.cpu
  memory := proc.monit.bind fun m => m.memory
  instances := proc.pm2_env.bind fun e => e.instances
  restarts := proc.pm2_env.bind fun e => e.restart_time
  script := proc.pm2_env.bind fun e => e.pm_exec_path
  execMode := proc.pm2_env.bind fun e => e.exec_mode

/-- `PM2Client.listProcesses` on a successfully resolved `pm2.list` result:
a plain order-preserving `map` of the conversion — no sorting. -/
def listProcesses (now : Int) (raw : List RawProc) : List ManagedProcess :=
  raw.map (toManaged now)

/-! ### `src/ui/app.ts`: view state -/

/-- The `viewMode` field of `App`. -/
inductive ViewMode where
  | all
  | running
  | stopped
deriving DecidableEq

/-- Notification severity accepted by `App.showNotification`. -/
inductive NoteSeverity where
  | info
  | success
  | warning
  | error
deriving DecidableEq

/-- A notification as passed to `App.showNotification` (message and
severity; the single-slot display and expiry timer are rendering concerns). -/
structure Notification where
  message : String
  severity : NoteSeverity
deriving DecidableEq

/-- The mutable fields of `App` that the claims concern. -/
structure AppState where
  processes : List ManagedProcess
  selectedIndex : Nat
  paused : Bool
  searchQuery : String
  filteredProcesses : List ManagedProcess
  viewMode : ViewMode
deriving DecidableEq

/-- The initial field values of `App` (lines 65-79 of `src/ui/app.ts`). -/
def initState : AppState where
  processes := []
  selectedIndex := 0
  paused := false
  searchQuery := ""
  filteredProcesses := []
  viewMode := ViewMode.all

/-- The repeated `this.searchQuery ? this.filteredProcesses : this.processes`
selection of the list driving selection and display (an empty search query is
falsy). -/
def activeList (s : AppState) : List ManagedProcess :=
  if s.searchQuery ≠ "" then s.filteredProcesses else s.processes

/-- The view-mode stage of `App.applyFilter`. -/
def modeFiltered (s : AppState) : List ManagedProcess :=
  match s.viewMode with
  | ViewMode.all => s.processes
  | ViewMode.running => s.processes.filter fun p => p.status == "online"
  | ViewMode.stopped => s.processes.filter fun p => p.status != "online"

/-- The search predicate of `App.applyFilter`: case-insensitive substring
match of the query against name, namespace (optional chaining: an absent
namespace never matches) and status. -/
def searchMatches (query : String) (p : ManagedProcess) : Bool :=
  jsIncludes (jsToLower p.name) query ||
    (match p.«namespace» with
     | some n => jsIncludes (jsToLower n) query
     | none => false) ||
    jsIncludes (jsToLower p.status) query

/-- `App.applyFilter` (lines 525-548): recomputes `filteredProcesses` from
`processes`, `viewMode` and `searchQuery`.  It does not touch
`selectedIndex`; `renderProcessTable` is display-only. -/
def applyFilter (s : AppState) : AppState :=
  let afterMode := modeFiltered s
  let filtered :=
    if s.searchQuery ≠ "" then
      afterMode.filter (searchMatches (jsToLower s.searchQuery))
    else afterMode
  { s with filteredProcesses := filtered }

/-- `App.getSelectedProcess` (lines 870-875): `procs[this.selectedIndex]`,
`undefined` when the index is out of range. -/
def getSelectedProcess (s : AppState) : Option ManagedProcess :=
  (activeList s).get? s.selectedIndex

/-- `App.changeSelection` (lines 1057-1068): no-op on an empty active list,
otherwise `Math.max(0, Math.min(selectedIndex + offset, procs.length - 1))`. -/
def changeSelection (offset : Int) (s : AppState) : AppState :=
  let procs := activeList s
  if procs.length = 0 then s
  else
    { s with
      selectedIndex :=
        (max 0 (min ((s.selectedIndex : Int) + offset)
          ((procs.length : Int) - 1))).toNat }

/-- `App.jumpToFirst`. -/
def jumpToFirst (s : AppState) : AppState :=
  { s with selectedIndex := 0 }

/-- `App.jumpToLast`: `Math.max(0, procs.length - 1)` over the active list. -/
def jumpToLast (s : AppState) : AppState :=
  { s with selectedIndex := (activeList s).length - 1 }

/-- `App.setViewMode`: sets the mode and re-runs the projection (the
notification it shows is mode-labelled `info`, irrelevant to the claims). -/
def setViewMode (m : ViewMode) (s : AppState) : AppState :=
  applyFilter { s with viewMode := m }

/-- The `searchBox.on("submit")` handler of `App.startSearch`: stores the
submitted query and re-runs the projection. -/
def submitSearch (q : String) (s : AppState) : AppState :=
  applyFilter { s with searchQuery := q }

/-- `App.cancelSearch`: clears the query and re-runs the projection. -/
def cancelSearch (s : AppState) : AppState :=
  applyFilter { s with searchQuery := "" }

/-- `App.refreshProcesses(force)` (lines 619-636) with the resolved outcome
of `listProcesses()` passed explicitly.  Returns the new state and the
notification shown, if any: skip when `paused && !force`; on success replace
`processes` wholesale and re-run the projection; on failure show an `error`
notification and leave the state untouched. -/
def refreshProcesses (now : Int) (s : AppState) (force : Bool)
    (result : Except String (List RawProc)) :
    AppState × Option Notification :=
  if s.paused && !force then (s, none)
  else
    match result with
    | Except.ok raw =>
      (applyFilter { s with processes := listProcesses now raw }, none)
    | Except.error e =>
      (s, some ⟨"Error refreshing: " ++ e, NoteSeverity.error⟩)

/-! ### `src/ui/app.ts`: log routing (`subscribeToLogs`, `isSelectedProcess`) -/

/-- A log-bus event as seen by the `launchBus` listeners: the
`ProcessDescription` fields the handlers read (`pm_id`, `name`). -/
structure LogEvent where
  pm_id : Option Int
  name : Option String
deriving DecidableEq

/-- `App.isSelectedProcess` (lines 749-752): `proc?.pmId === pmId` — false
when nothing is selected. -/
def isSelectedProcess (s : AppState) (pmId : Int) : Bool :=
  match getSelectedProcess s with
  | some p => p.pmId == pmId
  | none => false

/-- The routing test both `subscribeToLogs` listeners perform before
appending (lines 717-734): `const pmId = proc.pm_id ?? -1` followed by
`isSelectedProcess(pmId)`.  The event's `name` is only used for display
after the test passes, never for routing. -/
def logDisplayed (s : AppState) (ev : LogEvent) : Bool :=
  isSelectedProcess s (ev.pm_id.getD (-1))

/-- Modelled from the spec's routing sentence, for comparison with
`logDisplayed`: displayed iff the event id matches the selected process's
id, or — when the event id is unset — the event name matches the selected
process's name. -/
def specLogRoutingRule (s : AppState) (ev : LogEvent) : Prop :=
  ∃ p, getSelectedProcess s = some p ∧
    (ev.pm_id = some p.pmId ∨ (ev.pm_id = none ∧ ev.name = some p.name))

/-! ### `src/ui/app.ts`: action dispatch (`wrapAction`, delete-all, `confirm`) -/

/-- The observable outcome of one `wrapAction` invocation: the resulting
view state, how many forced `refreshProcesses(true)` calls it made, and the
notifications it showed, in order. -/
structure ActionTrace where
  state : AppState
  refreshForcedCalls : Nat
  notifications : List Notification
deriving DecidableEq

/-- `App.wrapAction` (lines 1001-1013) with the action's resolved outcome and
the poll outcome of the subsequent refresh passed explicitly.  The `try`
block shows the in-flight notification, awaits the action, and only on
success refreshes (forced) and shows the success notification; the `catch`
block shows the failure notification without refreshing. -/
def wrapAction (now : Int) (description : String) (s : AppState)
    (actionResult : Except String Unit)
    (pollResult : Except String (List RawProc)) : ActionTrace :=
  match actionResult with
  | Except.ok _ =>
    let refreshed := refreshProcesses now s true pollResult
    { state := refreshed.1
      refreshForcedCalls := 1
      notifications :=
        [⟨"⏳ " ++ description ++ "...", NoteSeverity.info⟩] ++
          (match refreshed.2 with | some n => [n] | none => []) ++
          [⟨"✅ " ++ description ++ " completed", NoteSeverity.success⟩] }
  | Except.error e =>
    { state := s
      refreshForcedCalls := 0
      notifications :=
        [⟨"⏳ " ++ description ++ "...", NoteSeverity.info⟩,
         ⟨"❌ Failed: " ++ e, NoteSeverity.error⟩] }

/-- The delete-all body (lines 427-430): `for (const proc of procs) await
this.client.deleteProcess(proc.pmId)`.  `outcome` gives each delete call's
resolved result; the function returns the list of pm ids actually passed to
`deleteProcess`, in order, and the loop's overall outcome.  An `await` that
rejects throws out of the `for` loop, so iteration stops at the first
failure. -/
def runDeleteAll (outcome : Int → Except String Unit) :
    List ManagedProcess → List Int × Except String Unit
  | [] => ([], Except.ok ())
  | p :: ps =>
    match outcome p.pmId with
    | Except.ok _ =>
      let rest := runDeleteAll outcome ps
      (p.pmId :: rest.1, rest.2)
    | Except.error e => ([p.pmId], Except.error e)

/-- The keys `App.confirm` (lines 968-999) binds on its confirmation box:
`y`/`Y` resolve true, `n`/`N`/`escape`/`q` resolve false. -/
inductive ConfirmKey where
  | y
  | Y
  | n
  | N
  | escape
  | q
deriving DecidableEq

/-- The boolean `App.confirm` resolves for each bound key. -/
def confirmResult : ConfirmKey → Bool
  | ConfirmKey.y => true
  | ConfirmKey.Y => true
  | _ => false

/-- The `d` key handler (lines 419-434): ask for aggregate confirmation; on
an affirmative answer run `wrapAction` around `listProcesses` plus the
delete loop, otherwise do nothing.  Returns the action trace and the pm ids
passed to `deleteProcess` (empty when nothing ran).  `listForDelete` is the
resolved outcome of the inner `listProcesses()` call, `pollResult` that of
the refresh inside `wrapAction`. -/
def deleteAllHandler (key : ConfirmKey) (now : Int) (s : AppState)
    (listForDelete : Except String (List RawProc))
    (outcome : Int → Except String Unit)
    (pollResult : Except String (List RawProc)) : ActionTrace × List Int :=
  if confirmResult key then
    match listForDelete with
    | Except.error e =>
      (wrapAction now "🗑️  Deleting all processes" s (Except.error e)
        pollResult, [])
    | Except.ok raw =>
      let deleted := runDeleteAll outcome (listProcesses now raw)
      (wrapAction now "🗑️  Deleting all processes" s deleted.2 pollResult,
        deleted.1)
  else
    ({ state := s, refreshForcedCalls := 0, notifications := [] }, [])

/-! ### Event sequences over the view state -/

/-- The user/poll events that drive the claim-relevant state transitions. -/
inductive Event where
  | poll (force : Bool) (result : Except String (List RawProc))
  | setMode (m : ViewMode)
  | search (q : String)
  | clearSearch
  | select (offset : Int)
  | first
  | last
  | togglePause

/-- One state transition per event, each mapped to the corresponding `App`
method. -/
def step (now : Int) (s : AppState) : Event → AppState
  | Event.poll force res => (refreshProcesses now s force res).1
  | Event.setMode m => setViewMode m s
  | Event.search q => submitSearch q s
  | Event.clearSearch => cancelSearch s
  | Event.select off => changeSelection off s
  | Event.first => jumpToFirst s
  | Event.last => jumpToLast s
  | Event.togglePause => { s with paused := !s.paused }

/-- Run an event sequence from the initial state. -/
def run (now : Int) (evs : List Event) : AppState :=
  evs.foldl (step now) initState

/-- The clamping invariant claimed of the projection: the selection index is
inside the active list when non-empty and zero when empty. -/
def clampInv (s : AppState) : Prop :=
  (activeList s ≠ [] → s.selectedIndex < (activeList s).length) ∧
    (activeList s = [] → s.selectedIndex = 0)

instance (s : AppState) : Decidable (clampInv s) := by
  unfold clampInv; infer_instance

/-! ### Concrete fixtures for counterexamples and witnesses -/

/-- A registry entry named "alpha". -/
def rawAlpha : RawProc where
  pm_id := some 0
  name := some "alpha"
  pid := some 100
  pm2_env := some
    { status := some "online"
      pm_uptime := some 5
      instances := some (InstanceCount.count 1)
      restart_time := some 0
      pm_exec_path := some "/srv/alpha.js"
      «namespace» := some "default"
      exec_mode := some "fork" }
  monit := some { cpu := some 1, memory := some 4096 }

/-- A registry entry named "beta". -/
def rawBeta : RawProc where
  pm_id := some 1
  name := some "beta"
  pid := some 101
  pm2_env := some
    { status := some "online"
      pm_uptime := some 5
      instances := some (InstanceCount.count 1)
      restart_time := some 0
      pm_exec_path := some "/srv/beta.js"
      «namespace» := some "default"
      exec_mode := some "fork" }
  monit := some { cpu := some 1, memory := some 4096 }

/-- A registry entry named "gamma". -/
def rawGamma : RawProc where
  pm_id := some 2
  name := some "gamma"
  pid := some 102
  pm2_env := some
    { status := some "stopped"
      pm_uptime := none
      instances := some (InstanceCount.count 1)
      restart_time := some 2
      pm_exec_path := some "/srv/gamma.js"
      «namespace» := some "default"
      exec_mode := some "fork" }
  monit := some { cpu := some 0, memory := some 2048 }

/-- A registry entry named "web" with pm id 2. -/
def rawWeb : RawProc where
  pm_id := some 2
  name := some "web"
  pid := some 103
  pm2_env := some
    { status := some "online"
      pm_uptime := some 5
      instances := some (InstanceCount.count 1)
      restart_time := some 0
      pm_exec_path := some "/srv/web.js"
      «namespace» := some "default"
      exec_mode := some "fork" }
  monit := some { cpu := some 1, memory := some 4096 }

/-- Event sequence: successful poll of ["alpha", "beta"], move the selection
down one, then submit the search "alpha" (which only "alpha" matches). -/
def shrinkEvents : List Event :=
  [Event.poll true (Except.ok [rawAlpha, rawBeta]),
   Event.select 1,
   Event.search "alpha"]

/-- A state obtained from one successful poll of ["alpha", "beta"]. -/
def sampleState : AppState :=
  (refreshProcesses 0 initState true (Except.ok [rawAlpha, rawBeta])).1

/-- A state obtained from one successful poll of ["web"]; its selection is
index 0, the "web" process with pm id 2. -/
def webState : AppState :=
  (refreshProcesses 0 initState true (Except.ok [rawWeb])).1

/-- A log event carrying no pm id and the name "web". -/
def anonWebEvent : LogEvent where
  pm_id := none
  name := some "web"

/-- A per-target delete outcome that rejects exactly for pm id 1 ("beta"). -/
def failOnBeta : Int → Except String Unit := fun i =>
  if i = 1 then Except.error "EPERM" else Except.ok ()

end PM2X

namespace PM2X

/-! ### Claim theorems -/

/-- C1 counterexample: after polling ["alpha", "beta"], moving the selection
to index 1 and then searching for "alpha" (one match), the active list is the
one-element filtered list while `selectedIndex` is still 1 — the projection
ran without clamping, refuting the claimed invariant. -/
theorem c1_counterexample : ¬ clampInv (run 0 shrinkEvents) := by decide

/-- C1 (amended): the filter/search projection itself never clamps —
`applyFilter` leaves `selectedIndex` unchanged — so the invariant can break
after a filter/search/poll change; clamping happens only in explicit
selection movement: after `changeSelection` on a state whose active list is
non-empty, `selectedIndex` is strictly inside the active list. -/
theorem c1_selection_clamped :
    (∀ (s : AppState) (off : Int), activeList s ≠ [] →
      (changeSelection off s).selectedIndex <
        (activeList (changeSelection off s)).length) ∧
    (∀ s : AppState, (applyFilter s).selectedIndex = s.selectedIndex) := by
  constructor
  · intro s off h
    have hlen : 0 < (activeList s).length := List.length_pos.mpr h
    have hq : (changeSelection off s).searchQuery = s.searchQuery := by
      simp only [changeSelection]
      split <;> rfl
    have hf : (changeSelection off s).filteredProcesses =
        s.filteredProcesses := by
      simp only [changeSelection]
      split <;> rfl
    have hp : (changeSelection off s).processes = s.processes := by
      simp only [changeSelection]
      split <;> rfl
    have hact : activeList (changeSelection off s) = activeList s := by
      unfold activeList
      rw [hq, hf, hp]
    rw [hact]
    simp only [changeSelection]
    split
    · omega
    · dsimp only
      omega
  · intro s
    rfl

/-- C1 witness: a concrete clamped navigation step on the two-process
sample state. -/
theorem c1_selection_clamped_witness :
    activeList sampleState ≠ [] ∧
      (changeSelection 5 sampleState).selectedIndex <
        (activeList (changeSelection 5 sampleState)).length :=
  ⟨by decide, c1_selection_clamped.1 sampleState 5 (by decide)⟩

/-- C2: if the poll actually runs (not skipped by pause) and
`listProcesses()` rejects, `refreshProcesses` leaves the state untouched —
in particular `processes` — and shows exactly the error-severity
"Error refreshing" notification. -/
theorem c2_poll_failure_keeps_state :
    ∀ (now : Int) (s : AppState) (force : Bool) (e : String),
      s.paused = false ∨ force = true →
      refreshProcesses now s force (Except.error e) =
        (s, some ⟨"Error refreshing: " ++ e, NoteSeverity.error⟩) := by
  intro now s force e h
  unfold refreshProcesses
  rcases h with h | h <;> simp [h]

/-- C2 witness: a failing unforced poll on the unpaused sample state. -/
theorem c2_poll_failure_keeps_state_witness :
    sampleState.paused = false ∧
      refreshProcesses 0 sampleState false (Except.error "boom") =
        (sampleState, some ⟨"Error refreshing: boom", NoteSeverity.error⟩) :=
  ⟨by decide,
    c2_poll_failure_keeps_state 0 sampleState false "boom" (Or.inl (by decide))⟩

end PM2X

namespace PM2X

/-- C3 counterexample: when the dispatched registry operation rejects,
`wrapAction`'s catch block only shows the failure notification — it makes no
forced refresh at all, refuting "on completion (success or failure) always
triggers refreshProcesses(force=true)". -/
theorem c3_counterexample :
    (wrapAction 0 "⏹️  Stopping all processes" sampleState
      (Except.error "EPERM") (Except.ok [])).refreshForcedCalls = 0 := by
  rfl

/-- C3 (amended): `wrapAction` triggers the forced refresh exactly when the
registry operation resolves successfully — the returned state is then the
refreshed one; on rejection it performs no refresh, leaves the state
untouched, and its notifications end with the error-severity failure
notification. -/
theorem c3_refresh_only_on_success :
    ∀ (now : Int) (d : String) (s : AppState)
      (poll : Except String (List RawProc)) (e : String),
      ((wrapAction now d s (Except.ok ()) poll).refreshForcedCalls = 1 ∧
        (wrapAction now d s (Except.ok ()) poll).state =
          (refreshProcesses now s true poll).1) ∧
      ((wrapAction now d s (Except.error e) poll).refreshForcedCalls = 0 ∧
        (wrapAction now d s (Except.error e) poll).state = s ∧
        (wrapAction now d s (Except.error e) poll).notifications =
          [⟨"⏳ " ++ d ++ "...", NoteSeverity.info⟩,
           ⟨"❌ Failed: " ++ e, NoteSeverity.error⟩]) := by
  intro now d s poll e
  refine ⟨⟨rfl, rfl⟩, rfl, rfl, rfl⟩

/-- C4 counterexample: deleting ["alpha"(0), "beta"(1), "gamma"(2)] with the
delete of pm id 1 rejecting only ever calls `deleteProcess` for ids 0 and 1 —
the loop aborts and "gamma" is never attempted, refuting best-effort bulk
semantics. -/
theorem c4_counterexample :
    (runDeleteAll failOnBeta (listProcesses 0 [rawAlpha, rawBeta, rawGamma])).1 =
        [0, 1] ∧
      (listProcesses 0 [rawAlpha, rawBeta, rawGamma]).map
          (fun p => p.pmId) = [0, 1, 2] := by
  exact ⟨rfl, rfl⟩

/-- C4 (amended): the delete-all loop `await`s each delete, so the first
rejection throws out of the loop: only the targets up to and including the
failing one are attempted, the remaining targets are skipped, and the single
failure becomes the loop's outcome (reported once by `wrapAction`'s error
notification). -/
theorem c4_delete_loop_aborts :
    ∀ (outcome : Int → Except String Unit) (p : ManagedProcess)
      (ps : List ManagedProcess) (e : String),
      outcome p.pmId = Except.error e →
      runDeleteAll outcome (p :: ps) = ([p.pmId], Except.error e) := by
  intro outcome p ps e h
  simp [runDeleteAll, h]

/-- C4 witness: the loop on ["beta"(1), "gamma"(2)] with pm id 1 failing
attempts only pm id 1. -/
theorem c4_delete_loop_aborts_witness :
    failOnBeta (toManaged 0 rawBeta).pmId = Except.error "EPERM" ∧
      runDeleteAll failOnBeta [toManaged 0 rawBeta, toManaged 0 rawGamma] =
        ([1], Except.error "EPERM") :=
  ⟨rfl, by
    have h := c4_delete_loop_aborts failOnBeta (toManaged 0 rawBeta)
      [toManaged 0 rawGamma] "EPERM" rfl
    simpa using h⟩

/-- C5 counterexample: with the "web" process (pm id 2) selected, an event
whose pm id is unset but whose name is "web" satisfies the claimed routing
rule (name fallback), yet the code computes `pm_id ?? -1 = -1 ≠ 2` and does
not append it. -/
theorem c5_counterexample :
    logDisplayed webState anonWebEvent = false ∧
      specLogRoutingRule webState anonWebEvent := by
  refine ⟨rfl, ⟨toManaged 0 rawWeb, rfl, Or.inr ⟨rfl, rfl⟩⟩⟩

/-- C5 (amended): an incoming log event is appended iff a process is
selected and its pm id equals the event's pm id defaulted to -1
(`proc.pm_id ?? -1`); the event's process name is never consulted for
routing. -/
theorem c5_routing_by_id_only :
    ∀ (s : AppState) (ev : LogEvent),
      logDisplayed s ev = true ↔
        ∃ p, getSelectedProcess s = some p ∧ p.pmId = ev.pm_id.getD (-1) := by
  intro s ev
  cases h : getSelectedProcess s with
  | none => simp [logDisplayed, isSelectedProcess, h]
  | some p => simp [logDisplayed, isSelectedProcess, h]

/-- C6: a bulk-delete confirmation answered with any non-affirmative bound
key (n, N, escape, q) makes the `d` handler a complete no-op: the state is
returned unchanged, no notification is shown, no refresh happens, and no
pm id is ever passed to `deleteProcess`. -/
theorem c6_negative_confirmation_no_delete :
    ∀ (key : ConfirmKey) (now : Int) (s : AppState)
      (listForDelete : Except String (List RawProc))
      (outcome : Int → Except String Unit)
      (poll : Except String (List RawProc)),
      confirmResult key = false →
      deleteAllHandler key now s listForDelete outcome poll =
        ({ state := s, refreshForcedCalls := 0, notifications := [] }, []) := by
  intro key now s listForDelete outcome poll h
  simp [deleteAllHandler, h]

/-- C6 witness: answering `n` on the sample state performs no delete call
and leaves the state unchanged. -/
theorem c6_negative_confirmation_no_delete_witness :
    confirmResult ConfirmKey.n = false ∧
      deleteAllHandler ConfirmKey.n 0 sampleState (Except.ok [rawAlpha])
          failOnBeta (Except.ok []) =
        ({ state := sampleState, refreshForcedCalls := 0,
           notifications := [] }, []) :=
  ⟨rfl, c6_negative_confirmation_no_delete ConfirmKey.n 0 sampleState
    (Except.ok [rawAlpha]) failOnBeta (Except.ok []) rfl⟩

end PM2X

namespace PM2X

/-- C7 counterexample: a zero duration renders as "-" (the `!ms` truthiness
guard), not as "0s". -/
theorem c7_counterexample : ¬ formatUptime (some 0) = "0s" := by decide

/-- C7 (amended): the displayed unit bucket is monotonically non-decreasing
over all durations — but a zero (or negative) duration renders as "-", not
"0s"; the positive sample points of the claim hold:
65000 ms renders "1m 5s" and 7384000 ms renders "2h 3m". -/
theorem c7_uptime_unit_monotone :
    (∀ m1 m2 : Int, m1 ≤ m2 →
      uptimeBucket (some m1) ≤ uptimeBucket (some m2)) ∧
    formatUptime (some 0) = "-" ∧
    formatUptime (some 65000) = "1m 5s" ∧
    formatUptime (some 7384000) = "2h 3m" := by
  refine ⟨?_, by decide, by decide, by decide⟩
  intro m1 m2 h
  simp only [uptimeBucket]
  split_ifs <;> omega

/-- C7 witness: the monotonicity component at the claim's two positive
sample durations. -/
theorem c7_uptime_unit_monotone_witness :
    (65000 : Int) ≤ 7384000 ∧
      uptimeBucket (some 65000) ≤ uptimeBucket (some 7384000) :=
  ⟨by decide, c7_uptime_unit_monotone.1 65000 7384000 (by decide)⟩

/-- C8 counterexample: `(1).toFixed(1)` is "1.0", so one gibibyte renders as
"1.0 GB", not "1 GB". -/
theorem c8_counterexample : ¬ formatBytes (some 1073741824) = "1 GB" := by
  decide

/-- C8 (amended): the byte formatter satisfies `formatBytes(0) = "-"`,
`formatBytes(1536) = "1.5 KB"`, and `formatBytes(1073741824) = "1.0 GB"`
(one decimal digit is rendered whenever the scaled value is below 100). -/
theorem c8_byte_formatter_values :
    formatBytes (some 0) = "-" ∧
      formatBytes (some 1536) = "1.5 KB" ∧
      formatBytes (some 1073741824) = "1.0 GB" := by
  exact ⟨by decide, by decide, by decide⟩

/-- Lexicographic comparison of character lists (by Unicode code point),
the order underlying "sorted by process name". -/
def charListLe : List Char → List Char → Bool
  | [], _ => true
  | _ :: _, [] => false
  | a :: as, b :: bs =>
    if a < b then true
    else if b < a then false
    else charListLe as bs

/-- Modelled from the spec: "processes: ordered sequence (full set,
name-sorted)" — the canonical list is sorted by process name. -/
def specNameSorted (l : List ManagedProcess) : Prop :=
  List.Sorted (fun a b => charListLe a.name.data b.name.data = true) l

instance (l : List ManagedProcess) : Decidable (specNameSorted l) := by
  unfold specNameSorted
  infer_instance

/-- C9 counterexample: a successful poll returning ["beta", "alpha"] (in
that registry order) is stored wholesale in exactly that order, which is not
name-sorted. -/
theorem c9_counterexample :
    ((refreshProcesses 0 initState true
        (Except.ok [rawBeta, rawAlpha])).1.processes.map fun p => p.name) =
      ["beta", "alpha"] ∧
    ¬ specNameSorted
        (refreshProcesses 0 initState true
          (Except.ok [rawBeta, rawAlpha])).1.processes := by
  exact ⟨by decide, by decide⟩

/-- C9 (amended): after every successful poll that actually runs, the stored
`processes` sequence is the full set returned by the registry, converted
element-wise in the registry's own order — `listProcesses` and
`refreshProcesses` never sort by name. -/
theorem c9_processes_registry_order :
    ∀ (now : Int) (s : AppState) (force : Bool) (raw : List RawProc),
      s.paused = false ∨ force = true →
      (refreshProcesses now s force (Except.ok raw)).1.processes =
          raw.map (toManaged now) ∧
        (refreshProcesses now s force (Except.ok raw)).1.processes.length =
          raw.length := by
  intro now s force raw h
  have hrun : (refreshProcesses now s force (Except.ok raw)).1 =
      applyFilter { s with processes := listProcesses now raw } := by
    unfold refreshProcesses
    rcases h with h | h <;> simp [h]
  rw [hrun]
  refine ⟨rfl, ?_⟩
  show (raw.map (toManaged now)).length = raw.length
  simp

/-- C9 witness: an unforced successful poll on the unpaused initial state
stores the registry order ["beta", "alpha"]. -/
theorem c9_processes_registry_order_witness :
    initState.paused = false ∧
      (refreshProcesses 0 initState false
          (Except.ok [rawBeta, rawAlpha])).1.processes =
        [rawBeta, rawAlpha].map (toManaged 0) :=
  ⟨rfl, (c9_processes_registry_order 0 initState false [rawBeta, rawAlpha]
    (Or.inl rfl)).1⟩

/-- C10: selection access is total — `getSelectedProcess` yields `none`
(never an error) whenever the selection index is outside the active list,
and `changeSelection` on an empty active list returns the state unchanged. -/
theorem c10_selection_access_total :
    (∀ s : AppState, (activeList s).length ≤ s.selectedIndex →
      getSelectedProcess s = none) ∧
    (∀ (s : AppState) (off : Int), activeList s = [] →
      changeSelection off s = s) := by
  constructor
  · intro s h
    exact List.get?_eq_none.mpr h
  · intro s off h
    simp [changeSelection, h]

/-- C10 witness: on the initial (empty) state, selection access yields
`none` and `changeSelection 3` is a no-op. -/
theorem c10_selection_access_total_witness :
    ((activeList initState).length ≤ initState.selectedIndex ∧
      getSelectedProcess initState = none) ∧
    (activeList initState = [] ∧ changeSelection 3 initState = initState) :=
  ⟨⟨by decide, c10_selection_access_total.1 initState (by decide)⟩,
   ⟨by decide, c10_selection_access_total.2 initState 3 (by decide)⟩⟩

end PM2X
